import Mathlib

/-!
Verification of the solar-system MCP server (`src/server.py`) against its
natural-language specification.

The Python module is shallowly embedded as follows.

* Python strings are Lean `String`s.  The Python character predicates and
  transformations used by the normalizer (`str.lower`, `str.strip`,
  `str.isalnum`) are modelled by `Char.toLower`, `Char.isWhitespace` and
  `Char.isAlphanum`; the vocabulary and alias data are pure ASCII, for which
  these agree with Python's Unicode-aware versions.
* The widget HTML is read from an on-disk asset at startup
  (`_load_widget_html`, an out-of-scope content provider), so every
  definition that touches the widget takes the loaded `html : String` as an
  explicit parameter; the theorems hold for every asset content.
* Python dicts with string keys are association lists; `dict.get` is
  `dictGet`.  JSON argument values are the inductive `JVal`.
* Pydantic validation of `SolarInput` (field aliases with
  `populate_by_name=True`, declared defaults, `extra="forbid"`) is modelled
  by `SolarInput.model_validate`.  The exact repr formatting of
  `e.errors()` is abstracted by `renderErrors`; the per-error structure
  (error type plus offending field) is kept.  Pydantic's lax coercions for
  scalar fields (for example string-to-bool parsing) are abstracted to the
  strict per-type checks; none of the verified claims depend on them.
* The MCP result types (`CallToolResult`, `ReadResourceResult`, the `_meta`
  dictionaries with their fixed key sets) are mirrored by structures whose
  fields correspond one-to-one to the keys the server actually sets.
-/

set_option linter.unusedVariables false

def MIME_TYPE : String := "text/html+skybridge"

def PLANETS : List String :=
  ["Mercury", "Venus", "Earth", "Mars", "Jupiter", "Saturn", "Uranus", "Neptune"]

def PLANET_ALIASES : List (String × String) :=
  [("terra", "Earth"),
   ("gaia", "Earth"),
   ("soliii", "Earth"),
   ("tellus", "Earth"),
   ("ares", "Mars"),
   ("jove", "Jupiter"),
   ("zeus", "Jupiter"),
   ("cronus", "Saturn"),
   ("ouranos", "Uranus"),
   ("poseidon", "Neptune")]

def PLANET_DESCRIPTIONS : List (String × String) :=
  [("Mercury", "Mercury is the smallest planet in the Solar System and the closest to the Sun. It has a rocky, cratered surface and extreme temperature swings."),
   ("Venus", "Venus, similar in size to Earth, is cloaked in thick clouds of sulfuric acid with surface temperatures hot enough to melt lead."),
   ("Earth", "Earth is the only known planet to support life, with liquid water covering most of its surface and a protective atmosphere."),
   ("Mars", "Mars, the Red Planet, shows evidence of ancient rivers and volcanoes and is a prime target in the search for past life."),
   ("Jupiter", "Jupiter is the largest planet, a gas giant with a Great Red Spot—an enormous storm raging for centuries."),
   ("Saturn", "Saturn is famous for its stunning ring system composed of billions of ice and rock particles orbiting the planet."),
   ("Uranus", "Uranus is an ice giant rotating on its side, giving rise to extreme seasonal variations during its long orbit."),
   ("Neptune", "Neptune, the farthest known giant, is a deep-blue world with supersonic winds and a faint ring system.")]

def DEFAULT_PLANET : String := "Earth"

/-- Python `dict.get` over an association list (first matching key wins;
Python dict keys are unique, so this is exact). -/
def dictGet (d : List (String × String)) (k : String) : Option String :=
  (d.find? (fun kv => kv.1 == k)).map (fun kv => kv.2)

/-- The frozen `SolarWidget` dataclass.  `html` is the asset file content
loaded at startup. -/
structure SolarWidget where
  identifier : String
  title : String
  template_uri : String
  invoking : String
  invoked : String
  html : String
  response_text : String
deriving DecidableEq

/-- The module-level `SOLAR_WIDGET` instance, parameterized by the loaded
asset content (`_load_widget_html "solar-system"`). -/
def SOLAR_WIDGET (html : String) : SolarWidget :=
  { identifier := "solar-system",
    title := "Explore the Solar System",
    template_uri := "ui://widget/solar-system-v1.html",
    invoking := "Charting the solar system",
    invoked := "Solar system ready",
    html := html,
    response_text := "Solar system ready_response text" }

/-- The validated payload of the `SolarInput` pydantic model. -/
structure SolarInput where
  planet_name : String
  auto_orbit : Bool
deriving DecidableEq

/-- JSON values appearing as tool-call argument values. -/
inductive JVal where
  | jstr (s : String)
  | jbool (b : Bool)
  | jint (n : Int)
deriving DecidableEq

/-- One entry of pydantic's `e.errors()`: `etype` is the pydantic error
`type` (for example `extra_forbidden`), `loc` the offending field key. -/
structure ValErr where
  etype : String
  loc : String
deriving DecidableEq

/-- The keys accepted by the `SolarInput` schema: each field's declared
alias and (because of `populate_by_name=True`) its canonical name. -/
def SCHEMA_KEYS : List String :=
  ["planetName", "planet_name", "autoOrbit", "auto_orbit"]

/-- Pydantic field lookup: the validation alias takes priority over the
canonical field name; returns the key that supplied the value. -/
def lookupField (args : List (String × JVal)) (aliasKey fieldKey : String) :
    Option (String × JVal) :=
  match args.find? (fun kv => kv.1 == aliasKey) with
  | some kv => some kv
  | none => args.find? (fun kv => kv.1 == fieldKey)

/-- Validation of the `planet_name` field: alias `planetName`, declared
default `DEFAULT_PLANET`, value must be a string. -/
def validatePlanetField (args : List (String × JVal)) : Except ValErr String :=
  match lookupField args "planetName" "planet_name" with
  | none => Except.ok DEFAULT_PLANET
  | some (_, JVal.jstr s) => Except.ok s
  | some (k, _) => Except.error { etype := "string_type", loc := k }

/-- Validation of the `auto_orbit` field: alias `autoOrbit`, declared
default `true`, value must be a boolean. -/
def validateOrbitField (args : List (String × JVal)) : Except ValErr Bool :=
  match lookupField args "autoOrbit" "auto_orbit" with
  | none => Except.ok true
  | some (_, JVal.jbool b) => Except.ok b
  | some (k, _) => Except.error { etype := "bool_type", loc := k }

def errList {α : Type} : Except ValErr α → List ValErr
  | Except.error e => [e]
  | Except.ok _ => []

/-- The `extra="forbid"` check: every argument key that is neither a schema
field name nor a declared alias yields an `extra_forbidden` error. -/
def extraErrors (args : List (String × JVal)) : List ValErr :=
  ((args.map Prod.fst).filter (fun k => !(SCHEMA_KEYS.contains k))).map
    (fun k => { etype := "extra_forbidden", loc := k })

/-- `SolarInput.model_validate(arguments)`: applies aliases and defaults,
rejects unknown keys, and on failure reports every error. -/
def SolarInput.model_validate (args : List (String × JVal)) :
    Except (List ValErr) SolarInput :=
  match validatePlanetField args, validateOrbitField args with
  | Except.ok p, Except.ok b =>
      if extraErrors args = [] then Except.ok { planet_name := p, auto_orbit := b }
      else Except.error (extraErrors args)
  | ep, eo => Except.error (errList ep ++ errList eo ++ extraErrors args)

/-- The full error list produced by a failing `model_validate` run. -/
def valErrsOf (args : List (String × JVal)) : List ValErr :=
  errList (validatePlanetField args) ++ errList (validateOrbitField args) ++
    extraErrors args

/-- Deterministic rendering of `e.errors()` used in the
`f"Invalid arguments: ..."` message; the exact Python repr formatting is
abstracted, the rendered text is a function of the error list. -/
def renderErrors (es : List ValErr) : String :=
  String.intercalate "; " (es.map (fun e => e.etype ++ " at " ++ e.loc))

/-- Python `str.lower` (ASCII behavior). -/
def lowerStr (s : String) : String := String.mk (s.data.map Char.toLower)

/-- Characters removed from both ends by Python `str.strip()`. -/
def stripList (l : List Char) : List Char :=
  ((l.dropWhile Char.isWhitespace).reverse.dropWhile Char.isWhitespace).reverse

/-- Python `str.strip()` (default whitespace stripping). -/
def stripStr (s : String) : String := String.mk (stripList s.data)

/-- The alphanumeric filter `''.join(ch for ch in s if ch.isalnum())`. -/
def cleanOf (s : String) : String := String.mk (s.data.filter Char.isAlphanum)

/-- The loop-local `planet_key`: the alphanumeric-stripped lowercase form of
a vocabulary entry. -/
def planetClean (p : String) : String := cleanOf (lowerStr p)

def charsStartWith : List Char → List Char → Bool
  | _, [] => true
  | [], _ :: _ => false
  | a :: as, b :: bs => a == b && charsStartWith as bs

/-- Python `s.startswith(pre)`. -/
def strStartsWith (s pre : String) : Bool := charsStartWith s.data pre.data

/-- The exact-match loop of `_normalize_planet`:
first planet with `clean == planet_key or key == planet.lower()`. -/
def exactScan (key clean : String) : Option String :=
  PLANETS.find? (fun planet => clean == planetClean planet || key == lowerStr planet)

/-- The final fallback loop of `_normalize_planet`:
first planet whose `planet_key` starts with `clean`. -/
def planetStartsWithScan (clean : String) : Option String :=
  PLANETS.find? (fun planet => strStartsWith (planetClean planet) clean)

/-- `_normalize_planet` from `src/server.py`.  The Python locals
`key = name.strip().lower()` and `clean = ...` are inlined (both are pure);
`if not name` and `if not key` are the empty-string checks;
`if alias:` is Python truthiness on the optional alias string. -/
def _normalize_planet (name : String) : Option String :=
  if name = "" then some DEFAULT_PLANET
  else if lowerStr (stripStr name) = "" then some DEFAULT_PLANET
  else
    match exactScan (lowerStr (stripStr name)) (cleanOf (lowerStr (stripStr name))) with
    | some planet => some planet
    | none =>
        match dictGet PLANET_ALIASES (cleanOf (lowerStr (stripStr name))) with
        | some a =>
            if a = "" then planetStartsWithScan (cleanOf (lowerStr (stripStr name)))
            else some a
        | none => planetStartsWithScan (cleanOf (lowerStr (stripStr name)))

/-- The fixed `annotations` sub-dictionary of `_tool_meta`. -/
structure ToolAnnotations where
  destructiveHint : Bool
  openWorldHint : Bool
  readOnlyHint : Bool
deriving DecidableEq

/-- The `_tool_meta` dictionary (fixed key set, modelled as fields). -/
structure ToolMeta where
  outputTemplate : String
  invoking : String
  invoked : String
  widgetAccessible : Bool
  resultCanProduceWidget : Bool
  annotations : ToolAnnotations
deriving DecidableEq

def _tool_meta (widget : SolarWidget) : ToolMeta :=
  { outputTemplate := widget.template_uri,
    invoking := widget.invoking,
    invoked := widget.invoked,
    widgetAccessible := true,
    resultCanProduceWidget := true,
    annotations :=
      { destructiveHint := false, openWorldHint := false, readOnlyHint := true } }

def _resource_description (widget : SolarWidget) : String :=
  widget.title ++ " widget markup"

/-- `types.TextResourceContents`: only the fields the server sets.  The
embedded-widget copy carries `title` and no `_meta`; the read-resource copy
carries `_meta = _tool_meta(...)` and no `title`. -/
structure TextResourceContents where
  uri : String
  mimeType : String
  text : String
  title : Option String
  meta : Option ToolMeta
deriving DecidableEq

/-- `types.EmbeddedResource` (its `type` discriminant is always
`"resource"` and is left implicit). -/
structure EmbeddedResource where
  resource : TextResourceContents
deriving DecidableEq

def _embedded_widget_resource (widget : SolarWidget) : EmbeddedResource :=
  { resource :=
      { uri := widget.template_uri,
        mimeType := MIME_TYPE,
        text := widget.html,
        title := some widget.title,
        meta := none } }

/-- The `structured` dictionary injected into the widget iframe. -/
structure StructuredContent where
  planet_name : String
  planet_description : String
  autoOrbit : Bool
deriving DecidableEq

/-- The `meta` dictionary of a successful tool call (fixed key set:
the embedded widget dump plus the output-template reference and the
host-surface hint keys). -/
structure CallMeta where
  widget : EmbeddedResource
  outputTemplate : String
  invoking : String
  invoked : String
  widgetAccessible : Bool
  resultCanProduceWidget : Bool
deriving DecidableEq

structure TextContent where
  text : String
deriving DecidableEq

/-- `types.CallToolResult`: `isError` defaults to `false`;
`structuredContent` and `_meta` default to absent. -/
structure CallToolResult where
  content : List TextContent
  structuredContent : Option StructuredContent
  isError : Bool
  meta : Option CallMeta
deriving DecidableEq

/-- `types.ReadResourceResult`; the miss branch sets
`_meta = {"error": msg}`, modelled as `errorMeta = some msg`. -/
structure ReadResourceResult where
  contents : List TextResourceContents
  errorMeta : Option String
deriving DecidableEq

/-- `_handle_read_resource`: exact uri match against the registered widget
resource; on mismatch an empty success result with an explanatory
metadata field. -/
def _handle_read_resource (html uri : String) : ReadResourceResult :=
  if uri ≠ (SOLAR_WIDGET html).template_uri then
    { contents := [],
      errorMeta := some ("요청한 리소스 없어.... " ++ uri) }
  else
    { contents :=
        [{ uri := (SOLAR_WIDGET html).template_uri,
           mimeType := MIME_TYPE,
           text := (SOLAR_WIDGET html).html,
           title := none,
           meta := some (_tool_meta (SOLAR_WIDGET html)) }],
      errorMeta := none }

/-- `_call_tool_request`: the registered `CallToolRequest` handler.  Note
that the Python handler reads `req.params.name` only for logging; the
`name` parameter is deliberately unused, exactly as in the source. -/
def _call_tool_request (html name : String) (arguments : List (String × JVal)) :
    CallToolResult :=
  match SolarInput.model_validate arguments with
  | Except.error e =>
      { content := [{ text := "Invalid arguments: " ++ renderErrors e }],
        structuredContent := none,
        isError := true,
        meta := none }
  | Except.ok payload =>
      match _normalize_planet payload.planet_name with
      | none =>
          { content :=
              [{ text := payload.planet_name ++
                  "은/는 없는 행성임. 행성 이름 잘 넣은거 맞음? 다음 중 하나만 됨. " ++
                  String.intercalate ", " PLANETS }],
            structuredContent := none,
            isError := true,
            meta := none }
      | some planet =>
          { content := [{ text := planet ++ " 중심으로 보이게 했음~~~~" }],
            structuredContent := some
              { planet_name := planet,
                planet_description := (dictGet PLANET_DESCRIPTIONS planet).getD "",
                autoOrbit := payload.auto_orbit },
            isError := false,
            meta := some
              { widget := _embedded_widget_resource (SOLAR_WIDGET html),
                outputTemplate := (SOLAR_WIDGET html).template_uri,
                invoking := (SOLAR_WIDGET html).invoking,
                invoked := (SOLAR_WIDGET html).invoked,
                widgetAccessible := true,
                resultCanProduceWidget := true } }

/-- `types.Tool` as the overriding `_list_tools` handler populates it.  The
`inputSchema` field is the document produced by pydantic's schema
generator, declared out of scope by the spec, and is omitted. -/
structure Tool where
  name : String
  title : String
  description : String
  meta : ToolMeta
deriving DecidableEq

structure Resource where
  name : String
  title : String
  uri : String
  description : String
  mimeType : String
  meta : ToolMeta
deriving DecidableEq

structure ResourceTemplate where
  name : String
  title : String
  uriTemplate : String
  description : String
  mimeType : String
  meta : ToolMeta
deriving DecidableEq

/-- The overriding `list_tools` handler. -/
def _list_tools (html : String) : List Tool :=
  [{ name := "focus-solar-planet",
     title := (SOLAR_WIDGET html).title,
     description := "Render the solar system widget centered on the requested planet.",
     meta := _tool_meta (SOLAR_WIDGET html) }]

/-- The overriding `list_resources` handler. -/
def _list_resources (html : String) : List Resource :=
  [{ name := (SOLAR_WIDGET html).title,
     title := (SOLAR_WIDGET html).title,
     uri := (SOLAR_WIDGET html).template_uri,
     description := _resource_description (SOLAR_WIDGET html),
     mimeType := MIME_TYPE,
     meta := _tool_meta (SOLAR_WIDGET html) }]

/-- The overriding `list_resource_templates` handler. -/
def _list_resource_templates (html : String) : List ResourceTemplate :=
  [{ name := (SOLAR_WIDGET html).title,
     title := (SOLAR_WIDGET html).title,
     uriTemplate := (SOLAR_WIDGET html).template_uri,
     description := _resource_description (SOLAR_WIDGET html),
     mimeType := MIME_TYPE,
     meta := _tool_meta (SOLAR_WIDGET html) }]

/-- The `@mcp.tool()`-decorated permission checker (registered on the
FastMCP layer but shadowed by the overriding `list_tools` handler). -/
def check_user_data_access_permission (user_id : Int) : Bool :=
  user_id == 1001 || user_id == 2002

theorem charWs_not_alnum (c : Char) (h : c.isWhitespace = true) :
    Char.isAlphanum (Char.toLower c) = false := by
  simp [Char.isWhitespace] at h
  rcases h with ((h | h) | h) | h <;> subst h <;> decide

theorem filter_dropWhile_of {q w : Char → Bool}
    (hw : ∀ c, w c = true → q c = false) :
    ∀ l : List Char, (l.dropWhile w).filter q = l.filter q := by
  intro l
  induction l with
  | nil => rfl
  | cons hd tl ih =>
    cases hwh : w hd with
    | false => simp [List.dropWhile_cons, hwh]
    | true => simp [List.dropWhile_cons, hwh, List.filter_cons, hw hd hwh, ih]

theorem filter_stripList {q : Char → Bool}
    (hq : ∀ c, c.isWhitespace = true → q c = false) (l : List Char) :
    (stripList l).filter q = l.filter q := by
  unfold stripList
  rw [List.filter_reverse, filter_dropWhile_of hq, List.filter_reverse,
    List.reverse_reverse, filter_dropWhile_of hq]

theorem cleanOf_lowerStr_stripStr (s : String) :
    cleanOf (lowerStr (stripStr s)) = cleanOf (lowerStr s) := by
  unfold cleanOf lowerStr stripStr
  apply String.ext
  show ((stripList s.data).map Char.toLower).filter Char.isAlphanum =
    (s.data.map Char.toLower).filter Char.isAlphanum
  rw [List.filter_map, List.filter_map]
  congr 1
  exact filter_stripList (fun c hc => charWs_not_alnum c hc) s.data

theorem exactScan_cleanOf (key : String) :
    exactScan key (cleanOf key) =
      PLANETS.find? (fun planet => cleanOf key == planetClean planet) := by
  unfold exactScan
  congr 1
  funext planet
  cases hk : (key == lowerStr planet) with
  | false => rw [Bool.or_false]
  | true =>
    have hkey : key = lowerStr planet := eq_of_beq hk
    have hc : cleanOf key = planetClean planet := by rw [hkey]; rfl
    rw [hc]
    simp

theorem normalize_of_cleanEq (V : String) (hV : V ∈ PLANETS) (s : String)
    (hs : cleanOf (lowerStr s) = planetClean V) :
    _normalize_planet s = some V := by
  have hne : planetClean V ≠ "" :=
    (by decide : ∀ W ∈ PLANETS, planetClean W ≠ "") V hV
  have hA : cleanOf (lowerStr (stripStr s)) = planetClean V :=
    (cleanOf_lowerStr_stripStr s).trans hs
  have h0 : s ≠ "" := by
    intro h
    subst h
    exact hne (hs.symm.trans rfl)
  have hk : lowerStr (stripStr s) ≠ "" := by
    intro h
    apply hne
    rw [← hA, h]
    rfl
  unfold _normalize_planet
  rw [if_neg h0, if_neg hk]
  rw [exactScan_cleanOf (lowerStr (stripStr s)), hA]
  have hfind : List.find? (fun planet => planetClean V == planetClean planet) PLANETS =
      some V :=
    (by decide :
      ∀ W ∈ PLANETS,
        List.find? (fun planet => planetClean W == planetClean planet) PLANETS = some W)
      V hV
  rw [hfind]

theorem planetStartsWithScan_mem {c p : String}
    (h : planetStartsWithScan c = some p) : p ∈ PLANETS :=
  List.mem_of_find?_eq_some h

theorem dictGet_mem {d : List (String × String)} {k v : String}
    (h : dictGet d k = some v) : ∃ kv ∈ d, kv.2 = v := by
  unfold dictGet at h
  rcases Option.map_eq_some'.mp h with ⟨kv, hfind, hv⟩
  exact ⟨kv, List.mem_of_find?_eq_some hfind, hv⟩

theorem normalize_planet_mem {s p : String}
    (h : _normalize_planet s = some p) : p ∈ PLANETS := by
  unfold _normalize_planet at h
  split_ifs at h with h1 h2
  · injection h with h
    rw [← h]
    decide
  · injection h with h
    rw [← h]
    decide
  · cases hex : exactScan (lowerStr (stripStr s)) (cleanOf (lowerStr (stripStr s))) with
    | some q =>
      rw [hex] at h
      injection h with h
      rw [← h]
      exact List.mem_of_find?_eq_some hex
    | none =>
      rw [hex] at h
      cases hd : dictGet PLANET_ALIASES (cleanOf (lowerStr (stripStr s))) with
      | some a =>
        rw [hd] at h
        dsimp only at h
        by_cases ha : a = ""
        · rw [if_pos ha] at h
          exact planetStartsWithScan_mem h
        · rw [if_neg ha] at h
          injection h with h
          rcases dictGet_mem hd with ⟨kv, hkv, hv⟩
          rw [← h, ← hv]
          exact (by decide : ∀ kv ∈ PLANET_ALIASES, kv.2 ∈ PLANETS) kv hkv
      | none =>
        rw [hd] at h
        exact planetStartsWithScan_mem h

/-- Claim C7: for every vocabulary entry V, normalization is the identity on
V, and this identity is insensitive to case and to non-alphanumeric
characters: every input whose alphanumeric-stripped lowercase form equals
that of V normalizes to V. -/
theorem c7_normalize_vocab_identity (V : String) (hV : V ∈ PLANETS) (s : String)
    (hs : cleanOf (lowerStr s) = planetClean V) :
    _normalize_planet s = some V ∧ _normalize_planet V = some V :=
  ⟨normalize_of_cleanEq V hV s hs, normalize_of_cleanEq V hV V rfl⟩

theorem c7_normalize_vocab_identity_witness :
    _normalize_planet "E.A.R.T.H!" = some "Earth" ∧
    _normalize_planet "Earth" = some "Earth" :=
  c7_normalize_vocab_identity "Earth" (by decide) "E.A.R.T.H!" (by decide)

/-- Claim C8: every alias of the alias table normalizes to its mapped
canonical planet name. -/
theorem c8_normalize_aliases :
    ∀ kv ∈ PLANET_ALIASES, _normalize_planet kv.1 = some kv.2 := by decide

theorem c8_normalize_aliases_witness :
    _normalize_planet "terra" = some "Earth" :=
  c8_normalize_aliases ("terra", "Earth") (by decide)

/-- Claim C9 (amended): for every input that does not hit the empty /
whitespace-only default branch, has no exact match and no alias, the
normalizer returns the first vocabulary entry, in vocabulary order, whose
alphanumeric-stripped lowercase form starts with the cleaned input
(`none` when no entry does).  The amendment: the original claim said
"neither empty" only, but a whitespace-only input (for example a single
space) also returns the default rather than entering the scan, see
`c9_counterexample`. -/
theorem c9_fallback_scan (s : String) (h1 : s ≠ "")
    (h2 : lowerStr (stripStr s) ≠ "")
    (h3 : exactScan (lowerStr (stripStr s)) (cleanOf (lowerStr (stripStr s))) = none)
    (h4 : dictGet PLANET_ALIASES (cleanOf (lowerStr (stripStr s))) = none) :
    _normalize_planet s = planetStartsWithScan (cleanOf (lowerStr (stripStr s))) := by
  unfold _normalize_planet
  rw [if_neg h1, if_neg h2, h3, h4]

theorem c9_fallback_scan_witness :
    _normalize_planet "jup" =
      planetStartsWithScan (cleanOf (lowerStr (stripStr "jup"))) ∧
    _normalize_planet "jup" = some "Jupiter" := by
  refine ⟨c9_fallback_scan "jup" (by decide) (by decide) (by decide) (by decide), ?_⟩
  rw [c9_fallback_scan "jup" (by decide) (by decide) (by decide) (by decide)]
  decide

/-- Claim C9 counterexample: the single-space input is not empty, matches no
vocabulary entry exactly and is no alias, yet the normalizer returns the
default "Earth" instead of the first entry whose cleaned form starts with
the (empty) cleaned input, which would be "Mercury". -/
theorem c9_counterexample :
    (" " : String) ≠ "" ∧
    exactScan (lowerStr (stripStr " ")) (cleanOf (lowerStr (stripStr " "))) = none ∧
    dictGet PLANET_ALIASES (cleanOf (lowerStr (stripStr " "))) = none ∧
    planetStartsWithScan (cleanOf (lowerStr (stripStr " "))) = some "Mercury" ∧
    _normalize_planet " " = some "Earth" := by decide

/-- Claim C1 (amended): the registered `CallToolRequest` handler ignores the
action name entirely — every invocation, including one with an unregistered
action name, is processed exactly as an invocation of the single registered
action, so an unregistered name never yields a `NotFound` result. -/
theorem c1_dispatch_ignores_name (html name other : String)
    (args : List (String × JVal)) :
    _call_tool_request html name args = _call_tool_request html other args := rfl

/-- Claim C1 counterexample: invoking the unregistered action name
"bogus-action" (with valid empty arguments) yields a successful invocation
result — `isError` is false and a hydration payload is produced — rather
than the `NotFound` result the claim requires. -/
theorem c1_counterexample :
    ("bogus-action" : String) ≠ "focus-solar-planet" ∧
    (_call_tool_request "<html>" "bogus-action" []).isError = false ∧
    (_call_tool_request "<html>" "bogus-action" []).structuredContent =
      some { planet_name := "Earth",
             planet_description := (dictGet PLANET_DESCRIPTIONS "Earth").getD "",
             autoOrbit := true } ∧
    (dictGet PLANET_DESCRIPTIONS "Earth").getD "" ≠ "" := by decide

/-- Claim C2: a `ReadResource` request whose uri differs from the registered
widget uri returns an empty success result (empty contents) carrying an
explanatory metadata field, not a hard failure; the exactly matching uri
returns the widget html with mime type `text/html+skybridge`. -/
theorem c2_read_resource_dispatch (html uri : String)
    (h : uri ≠ "ui://widget/solar-system-v1.html") :
    _handle_read_resource html uri =
      { contents := [], errorMeta := some ("요청한 리소스 없어.... " ++ uri) } ∧
    _handle_read_resource html "ui://widget/solar-system-v1.html" =
      { contents :=
          [{ uri := "ui://widget/solar-system-v1.html",
             mimeType := MIME_TYPE,
             text := html,
             title := none,
             meta := some (_tool_meta (SOLAR_WIDGET html)) }],
        errorMeta := none } := by
  constructor
  · unfold _handle_read_resource
    split_ifs with hc
    · rfl
    · exact absurd h hc
  · unfold _handle_read_resource
    split_ifs with hc
    · exact absurd rfl hc
    · rfl

theorem c2_read_resource_dispatch_witness :
    _handle_read_resource "<html>" "ui://other" =
      { contents := [], errorMeta := some ("요청한 리소스 없어.... " ++ "ui://other") } ∧
    _handle_read_resource "<html>" "ui://widget/solar-system-v1.html" =
      { contents :=
          [{ uri := "ui://widget/solar-system-v1.html",
             mimeType := MIME_TYPE,
             text := "<html>",
             title := none,
             meta := some (_tool_meta (SOLAR_WIDGET "<html>")) }],
        errorMeta := none } :=
  c2_read_resource_dispatch "<html>" "ui://other" (by decide)

/-- Claim C3: an invocation whose planet argument resolves yields a
non-error result whose structured content holds the canonical planet name,
the non-empty description from the static table and the pass-through
auto-orbit flag, and whose metadata embeds the bound resource (uri, mime
type, full html body) together with the invoking/invoked labels. -/
theorem c3_resolved_invocation (html name : String) (args : List (String × JVal))
    (payload : SolarInput) (p : String)
    (hok : SolarInput.model_validate args = Except.ok payload)
    (hnorm : _normalize_planet payload.planet_name = some p) :
    p ∈ PLANETS ∧
    (dictGet PLANET_DESCRIPTIONS p).getD "" ≠ "" ∧
    _call_tool_request html name args =
      { content := [{ text := p ++ " 중심으로 보이게 했음~~~~" }],
        structuredContent := some
          { planet_name := p,
            planet_description := (dictGet PLANET_DESCRIPTIONS p).getD "",
            autoOrbit := payload.auto_orbit },
        isError := false,
        meta := some
          { widget := _embedded_widget_resource (SOLAR_WIDGET html),
            outputTemplate := (SOLAR_WIDGET html).template_uri,
            invoking := (SOLAR_WIDGET html).invoking,
            invoked := (SOLAR_WIDGET html).invoked,
            widgetAccessible := true,
            resultCanProduceWidget := true } } := by
  have hp := normalize_planet_mem hnorm
  refine ⟨hp, ?_, ?_⟩
  · exact (by decide : ∀ q ∈ PLANETS, (dictGet PLANET_DESCRIPTIONS q).getD "" ≠ "") p hp
  · simp only [_call_tool_request, hok, hnorm]

theorem c3_resolved_invocation_witness :
    ("Earth" : String) ∈ PLANETS ∧
    (dictGet PLANET_DESCRIPTIONS "Earth").getD "" ≠ "" ∧
    _call_tool_request "<html>" "focus-solar-planet" [("planetName", JVal.jstr "terra")] =
      { content := [{ text := "Earth" ++ " 중심으로 보이게 했음~~~~" }],
        structuredContent := some
          { planet_name := "Earth",
            planet_description := (dictGet PLANET_DESCRIPTIONS "Earth").getD "",
            autoOrbit := true },
        isError := false,
        meta := some
          { widget := _embedded_widget_resource (SOLAR_WIDGET "<html>"),
            outputTemplate := (SOLAR_WIDGET "<html>").template_uri,
            invoking := (SOLAR_WIDGET "<html>").invoking,
            invoked := (SOLAR_WIDGET "<html>").invoked,
            widgetAccessible := true,
            resultCanProduceWidget := true } } :=
  c3_resolved_invocation "<html>" "focus-solar-planet"
    [("planetName", JVal.jstr "terra")] { planet_name := "terra", auto_orbit := true }
    "Earth" rfl (by decide)

/-- Claim C4: an invocation whose planet argument fails normalization
yields `isError = true`, no structured content, and a text message
enumerating the full vocabulary comma-joined in vocabulary order. -/
theorem c4_unresolved_invocation (html name : String) (args : List (String × JVal))
    (payload : SolarInput)
    (hok : SolarInput.model_validate args = Except.ok payload)
    (hnorm : _normalize_planet payload.planet_name = none) :
    _call_tool_request html name args =
      { content :=
          [{ text := payload.planet_name ++
              "은/는 없는 행성임. 행성 이름 잘 넣은거 맞음? 다음 중 하나만 됨. " ++
              String.intercalate ", " PLANETS }],
        structuredContent := none,
        isError := true,
        meta := none } := by
  simp only [_call_tool_request, hok, hnorm]

theorem c4_unresolved_invocation_witness :
    _call_tool_request "<html>" "focus-solar-planet" [("planetName", JVal.jstr "Pluto")] =
      { content :=
          [{ text := "Pluto" ++
              "은/는 없는 행성임. 행성 이름 잘 넣은거 맞음? 다음 중 하나만 됨. " ++
              String.intercalate ", " PLANETS }],
        structuredContent := none,
        isError := true,
        meta := none } :=
  c4_unresolved_invocation "<html>" "focus-solar-planet"
    [("planetName", JVal.jstr "Pluto")] { planet_name := "Pluto", auto_orbit := true }
    rfl (by decide)

theorem find_key_eq_none {args : List (String × JVal)} {key : String}
    (h : key ∉ args.map Prod.fst) :
    args.find? (fun kv => kv.1 == key) = none := by
  apply List.find?_eq_none.mpr
  intro kv hkv hbeq
  exact h (List.mem_map.mpr ⟨kv, hkv, eq_of_beq hbeq⟩)

/-- Claim C5: an arguments mapping containing any key that is neither a
schema field nor a declared alias fails validation; the error list names
every such offending key, and the invocation result is error-flagged with
those messages as text, with no structured content and no metadata. -/
theorem c5_unknown_fields_rejected (html name : String)
    (args : List (String × JVal)) (k : String)
    (hk : k ∈ args.map Prod.fst) (hnot : k ∉ SCHEMA_KEYS) :
    SolarInput.model_validate args = Except.error (valErrsOf args) ∧
    (∀ kx, kx ∈ args.map Prod.fst → kx ∉ SCHEMA_KEYS →
      ValErr.mk "extra_forbidden" kx ∈ valErrsOf args) ∧
    _call_tool_request html name args =
      { content := [{ text := "Invalid arguments: " ++ renderErrors (valErrsOf args) }],
        structuredContent := none,
        isError := true,
        meta := none } := by
  have hmem : ∀ kx, kx ∈ args.map Prod.fst → kx ∉ SCHEMA_KEYS →
      ValErr.mk "extra_forbidden" kx ∈ extraErrors args := by
    intro kx h1 h2
    unfold extraErrors
    refine List.mem_map.mpr ⟨kx, ?_, rfl⟩
    refine List.mem_filter.mpr ⟨h1, ?_⟩
    simp [List.contains, List.elem_iff]
    exact h2
  have hne : extraErrors args ≠ [] := by
    intro hnil
    have := hmem k hk hnot
    rw [hnil] at this
    exact absurd this (List.not_mem_nil _)
  have hval : SolarInput.model_validate args = Except.error (valErrsOf args) := by
    unfold SolarInput.model_validate valErrsOf
    cases hp : validatePlanetField args with
    | ok p =>
      cases ho : validateOrbitField args with
      | ok b =>
        dsimp only
        rw [if_neg hne]
        simp [errList]
      | error e => simp [errList]
    | error e => cases ho : validateOrbitField args <;> simp [errList]
  refine ⟨hval, ?_, ?_⟩
  · intro kx h1 h2
    unfold valErrsOf
    exact List.mem_append.mpr (Or.inr (hmem kx h1 h2))
  · simp only [_call_tool_request, hval]

theorem c5_unknown_fields_rejected_witness :
    SolarInput.model_validate [("bogus", JVal.jstr "x")] =
      Except.error (valErrsOf [("bogus", JVal.jstr "x")]) ∧
    ValErr.mk "extra_forbidden" "bogus" ∈ valErrsOf [("bogus", JVal.jstr "x")] ∧
    _call_tool_request "<html>" "focus-solar-planet" [("bogus", JVal.jstr "x")] =
      { content :=
          [{ text := "Invalid arguments: " ++
              renderErrors (valErrsOf [("bogus", JVal.jstr "x")]) }],
        structuredContent := none,
        isError := true,
        meta := none } := by
  have h := c5_unknown_fields_rejected "<html>" "focus-solar-planet"
    [("bogus", JVal.jstr "x")] "bogus" (by decide) (by decide)
  exact ⟨h.1, h.2.1 "bogus" (by decide) (by decide), h.2.2⟩

/-- Claim C6: validation applies the declared defaults for omitted fields
(planet name defaults to "Earth", auto-orbit to true) and accepts either
the canonical field name or its declared alias as the key supplying a
field's value. -/
theorem c6_defaults_and_aliases (args : List (String × JVal)) (payload : SolarInput)
    (s : String) (b : Bool)
    (hok : SolarInput.model_validate args = Except.ok payload) :
    (("planetName" ∉ args.map Prod.fst ∧ "planet_name" ∉ args.map Prod.fst) →
        payload.planet_name = "Earth") ∧
    (("autoOrbit" ∉ args.map Prod.fst ∧ "auto_orbit" ∉ args.map Prod.fst) →
        payload.auto_orbit = true) ∧
    SolarInput.model_validate [("planet_name", JVal.jstr s)] =
      Except.ok { planet_name := s, auto_orbit := true } ∧
    SolarInput.model_validate [("planetName", JVal.jstr s)] =
      Except.ok { planet_name := s, auto_orbit := true } ∧
    SolarInput.model_validate [("auto_orbit", JVal.jbool b)] =
      Except.ok { planet_name := "Earth", auto_orbit := b } ∧
    SolarInput.model_validate [("autoOrbit", JVal.jbool b)] =
      Except.ok { planet_name := "Earth", auto_orbit := b } := by
  have hinv : validatePlanetField args = Except.ok payload.planet_name ∧
      validateOrbitField args = Except.ok payload.auto_orbit := by
    unfold SolarInput.model_validate at hok
    cases hp : validatePlanetField args with
    | error e =>
      simp only [hp] at hok
      exact absurd hok (by simp)
    | ok p =>
      cases ho : validateOrbitField args with
      | error e =>
        simp only [hp, ho] at hok
        exact absurd hok (by simp)
      | ok b2 =>
        simp only [hp, ho] at hok
        by_cases he : extraErrors args = []
        · rw [if_pos he] at hok
          injection hok with hok
          subst hok
          exact ⟨rfl, rfl⟩
        · rw [if_neg he] at hok
          exact absurd hok (by simp)
  obtain ⟨hvp, hvo⟩ := hinv
  refine ⟨?_, ?_, rfl, rfl, rfl, rfl⟩
  · rintro ⟨hA, hB⟩
    have hlf : lookupField args "planetName" "planet_name" = none := by
      unfold lookupField
      rw [find_key_eq_none hA, find_key_eq_none hB]
    unfold validatePlanetField at hvp
    rw [hlf] at hvp
    injection hvp with h
    exact h.symm
  · rintro ⟨hA, hB⟩
    have hlf : lookupField args "autoOrbit" "auto_orbit" = none := by
      unfold lookupField
      rw [find_key_eq_none hA, find_key_eq_none hB]
    unfold validateOrbitField at hvo
    rw [hlf] at hvo
    injection hvo with h
    exact h.symm

theorem c6_defaults_and_aliases_witness :
    (({ planet_name := "Earth", auto_orbit := true } : SolarInput).planet_name =
        "Earth") ∧
    (({ planet_name := "Earth", auto_orbit := true } : SolarInput).auto_orbit =
        true) ∧
    SolarInput.model_validate [("planet_name", JVal.jstr "Mars")] =
      Except.ok { planet_name := "Mars", auto_orbit := true } ∧
    SolarInput.model_validate [("planetName", JVal.jstr "Mars")] =
      Except.ok { planet_name := "Mars", auto_orbit := true } ∧
    SolarInput.model_validate [("auto_orbit", JVal.jbool false)] =
      Except.ok { planet_name := "Earth", auto_orbit := false } ∧
    SolarInput.model_validate [("autoOrbit", JVal.jbool false)] =
      Except.ok { planet_name := "Earth", auto_orbit := false } := by
  have h := c6_defaults_and_aliases [] { planet_name := "Earth", auto_orbit := true }
    "Mars" false rfl
  exact ⟨h.1 ⟨by decide, by decide⟩, h.2.1 ⟨by decide, by decide⟩,
    h.2.2.1, h.2.2.2.1, h.2.2.2.2.1, h.2.2.2.2.2⟩

/-- Claim C10: each of the three overriding enumeration handlers returns
exactly one descriptor — the solar tool, resource and template — all
referencing the identifier "ui://widget/solar-system-v1.html" with mime
type "text/html+skybridge"; the decorator-registered entries (the
user-permission tool, the config resource, the user-profile template)
never appear, because the overriding handlers do not include them. -/
theorem c10_enumerations_fixed (html : String) :
    (_list_tools html).length = 1 ∧
    _list_tools html =
      [{ name := "focus-solar-planet",
         title := "Explore the Solar System",
         description := "Render the solar system widget centered on the requested planet.",
         meta := _tool_meta (SOLAR_WIDGET html) }] ∧
    (∀ t ∈ _list_tools html,
        t.name = "focus-solar-planet" ∧
        t.meta.outputTemplate = "ui://widget/solar-system-v1.html") ∧
    (_list_resources html).length = 1 ∧
    (∀ r ∈ _list_resources html,
        r.uri = "ui://widget/solar-system-v1.html" ∧
        r.mimeType = "text/html+skybridge") ∧
    (_list_resource_templates html).length = 1 ∧
    (∀ rt ∈ _list_resource_templates html,
        rt.uriTemplate = "ui://widget/solar-system-v1.html" ∧
        rt.mimeType = "text/html+skybridge") ∧
    "check_user_data_access_permission" ∉ (_list_tools html).map Tool.name ∧
    "file://config.json" ∉ (_list_resources html).map Resource.uri := by
  refine ⟨rfl, rfl, ?_, rfl, ?_, rfl, ?_, ?_, ?_⟩
  · intro t ht
    simp only [_list_tools, List.mem_singleton] at ht
    subst ht
    exact ⟨rfl, rfl⟩
  · intro r hr
    simp only [_list_resources, List.mem_singleton] at hr
    subst hr
    exact ⟨rfl, rfl⟩
  · intro rt hrt
    simp only [_list_resource_templates, List.mem_singleton] at hrt
    subst hrt
    exact ⟨rfl, rfl⟩
  · simp [_list_tools]
  · simp [_list_resources, SOLAR_WIDGET]
